import Mathlib

/-!
Verification of the spot-termination-exporter metric collector.

The collector (`terminationCollector.Collect` in the Go source) performs,
per scrape, a fixed sequence of HTTP metadata calls (optional IMDSv2 token
negotiation, instance-id, instance-type, spot/instance-action,
events/recommendations/rebalance) and emits gauge readings.

Embedding choices:
* An outcome of one HTTP GET is `FetchResult`: a transport error, or a
  status code together with the response body.  A Go `*http.Response` body
  is modelled at the granularity `json.Unmarshal` distinguishes:
  `malformed` (Unmarshal returns an error) versus a decoded object whose
  fields may each be absent (absent fields keep Go zero values).
* Time is ℚ, in seconds since the Unix epoch.  `time.Until(t)` is
  `t - now`; Go's zero `time.Time` (January 1, year 1 UTC) is the constant
  `goZeroTime`.  `delta.Seconds() > 0` holds iff the duration is positive.
* `collect` returns the ordered trace of metadata requests issued and the
  ordered list of metric readings sent on the Prometheus channel.
-/

namespace SpotTermination

/-- The five metric descriptors created in `NewTerminationCollector`. -/
inductive MetricName
  | scrapeSuccessful
  | rebalanceScrapeSuccessful
  | terminationIndicator
  | terminationTime
  | rebalanceIndicator
deriving DecidableEq, Repr

/-- One `prometheus.MustNewConstMetric` emission: descriptor, gauge value,
variable label values in declaration order. -/
structure Reading where
  metric : MetricName
  value : ℚ
  labelValues : List String
deriving DecidableEq, Repr

/-- One outbound metadata request made during `Collect`. -/
inductive Request
  | tokenReq
  | idReq
  | typeReq
  | spotReq
  | rebalanceReq
deriving DecidableEq, Repr

/-- Result of `getResponse`: transport error (`client.Do` fails), or a
response with a status code and body. -/
inductive FetchResult (α : Type)
  | err
  | ok (status : Nat) (body : α)
deriving DecidableEq, Repr

/-- Go's zero `time.Time` (January 1, year 1, 00:00:00 UTC) expressed in
seconds since the Unix epoch. -/
def goZeroTime : ℚ := -62135596800

/-- Decoded `spot/instance-action` payload (`instanceAction` in the Go
source): fields `action` and `time`. -/
structure instanceAction where
  Action : String
  Time : ℚ
deriving DecidableEq, Repr

/-- Decoded `events/recommendations/rebalance` payload (`instanceEvent`):
field `noticeTime`. -/
structure instanceEvent where
  NoticeTime : ℚ
deriving DecidableEq, Repr

/-- Body of the spot/instance-action response, at the granularity
`json.Unmarshal` into `instanceAction` distinguishes: `malformed` when
Unmarshal errors, otherwise a JSON value where each struct field is either
present or absent. -/
inductive SpotBody
  | malformed
  | object (action : Option String) (time : Option ℚ)
deriving DecidableEq, Repr

/-- Body of the rebalance response at the granularity `json.Unmarshal`
into `instanceEvent` distinguishes. -/
inductive RebalanceBody
  | malformed
  | object (noticeTime : Option ℚ)
deriving DecidableEq, Repr

/-- `json.Unmarshal(body, &ia)` for `instanceAction`: fails on malformed
input; on success absent fields keep their Go zero values (empty string,
zero time). -/
def decodeInstanceAction : SpotBody → Option instanceAction
  | .malformed => none
  | .object a t => some ⟨a.getD "", t.getD goZeroTime⟩

/-- `json.Unmarshal(body, &ie)` for `instanceEvent`. -/
def decodeInstanceEvent : RebalanceBody → Option instanceEvent
  | .malformed => none
  | .object t => some ⟨t.getD goZeroTime⟩

/-- The metadata backend's responses for one scrape: the token PUT
(`none` = transport or body-read error in `getIMDSv2Token`, otherwise the
body string returned as the token) and the four GET endpoints. -/
structure Backend where
  tokenResult : Option String
  instanceId : FetchResult String
  instanceType : FetchResult String
  spotAction : FetchResult SpotBody
  rebalance : FetchResult RebalanceBody
deriving DecidableEq, Repr

/-- The collector's fields relevant to control flow (descriptors are
immutable and carry no behaviour). -/
structure terminationCollector where
  metadataEndpoint : String
  tokenEndpoint : String
  useIMDSv2 : Bool
deriving DecidableEq, Repr

/-- Token phase of `Collect`: when `useIMDSv2` is set, `getIMDSv2Token` is
called; on failure `Collect` returns at once.  Yields the requests issued
and the token string (empty when the phase is skipped). -/
def tokenPhase (c : terminationCollector) (b : Backend) :
    Option (List Request × String) :=
  if c.useIMDSv2 then
    match b.tokenResult with
    | none => none
    | some t => some ([Request.tokenReq], t)
  else some ([], "")

/-- Termination phase of `Collect` (the readings emitted for the
spot/instance-action fetch).  Transport error: `scrapeSuccessful = 0`.
Otherwise `scrapeSuccessful = 1`; a 404 or an undecodable body yields
`terminationIndicator = 0` with empty action label; a decoded body yields
`terminationIndicator = 1` with the decoded action, plus
`terminationTime = time.Until(ia.Time).Seconds()` when that is positive. -/
def spotPhase (r : FetchResult SpotBody) (instanceID instanceType : String)
    (now : ℚ) : List Reading :=
  match r with
  | .err => [⟨.scrapeSuccessful, 0, [instanceID]⟩]
  | .ok status body =>
    ⟨.scrapeSuccessful, 1, [instanceID]⟩ ::
      (if status = 404 then
        [⟨.terminationIndicator, 0, ["", instanceID, instanceType]⟩]
      else
        match decodeInstanceAction body with
        | none => [⟨.terminationIndicator, 0, ["", instanceID, instanceType]⟩]
        | some ia =>
          ⟨.terminationIndicator, 1, [ia.Action, instanceID, instanceType]⟩ ::
            (if 0 < ia.Time - now then
              [⟨.terminationTime, ia.Time - now, [instanceID, instanceType]⟩]
            else []))

/-- Rebalance phase of `Collect`.  Transport error:
`rebalanceScrapeSuccessful = 0`.  Otherwise the gauge is 1; a 404 or
undecodable body yields `rebalanceIndicator = 0`, a decoded body yields
`rebalanceIndicator = 1`. -/
def rebalancePhase (r : FetchResult RebalanceBody)
    (instanceID instanceType : String) : List Reading :=
  match r with
  | .err => [⟨.rebalanceScrapeSuccessful, 0, [instanceID]⟩]
  | .ok status body =>
    ⟨.rebalanceScrapeSuccessful, 1, [instanceID]⟩ ::
      (if status = 404 then
        [⟨.rebalanceIndicator, 0, [instanceID, instanceType]⟩]
      else
        match decodeInstanceEvent body with
        | none => [⟨.rebalanceIndicator, 0, [instanceID, instanceType]⟩]
        | some _ => [⟨.rebalanceIndicator, 1, [instanceID, instanceType]⟩])

/-- `terminationCollector.Collect`: the ordered metadata requests issued
and the ordered readings emitted for one scrape, given the backend's
responses and the current time. -/
def collect (c : terminationCollector) (b : Backend) (now : ℚ) :
    List Request × List Reading :=
  match tokenPhase c b with
  | none => ([Request.tokenReq], [])
  | some (tokReqs, _token) =>
    match b.instanceId with
    | .err => (tokReqs ++ [Request.idReq], [])
    | .ok idStatus idBody =>
      if idStatus = 404 then (tokReqs ++ [Request.idReq], [])
      else
        match b.instanceType with
        | .err => (tokReqs ++ [Request.idReq, Request.typeReq], [])
        | .ok tyStatus tyBody =>
          if tyStatus = 404 then
            (tokReqs ++ [Request.idReq, Request.typeReq], [])
          else
            (tokReqs ++ [Request.idReq, Request.typeReq,
              Request.spotReq, Request.rebalanceReq],
             spotPhase b.spotAction idBody tyBody now ++
               rebalancePhase b.rebalance idBody tyBody)

/-- One `Collect` invocation as a step on collector state: the Go method
assigns to no receiver field, so the collector comes out unchanged. -/
def collectStep (c : terminationCollector) (b : Backend) (now : ℚ) :
    terminationCollector × List Reading :=
  (c, (collect c b now).2)

/-- A sequence of scrapes, threading the collector state through each
invocation. -/
def scrapeSeq (c : terminationCollector) (bs : List Backend) (now : ℚ) :
    List (List Reading) :=
  match bs with
  | [] => []
  | b :: rest => (collectStep c b now).2 :: scrapeSeq (collectStep c b now).1 rest now

/-- True when the identity fetch outcome makes `Collect` abort: transport
error or 404. -/
def abortsIdentity : FetchResult String → Bool
  | .err => true
  | .ok status _ => status == 404

/-- True when the token phase does not abort the scrape: IMDSv2 disabled,
or the token fetch succeeded. -/
def tokenOk (c : terminationCollector) (b : Backend) : Bool :=
  !c.useIMDSv2 || b.tokenResult.isSome

/-- When the token phase does not abort, it yields either no request
(IMDSv2 disabled) or exactly the token request. -/
theorem tokenPhase_of_tokenOk (c : terminationCollector) (b : Backend)
    (htok : tokenOk c b = true) :
    ∃ tr t, tokenPhase c b = some (tr, t) ∧
      (tr = [] ∨ tr = [Request.tokenReq]) := by
  unfold tokenPhase
  cases hu : c.useIMDSv2
  · exact ⟨[], "", by simp, Or.inl rfl⟩
  · simp only [tokenOk, hu, Bool.not_true, Bool.false_or] at htok
    obtain ⟨t, ht⟩ := Option.isSome_iff_exists.mp htok
    exact ⟨[Request.tokenReq], t, by simp [ht], Or.inr rfl⟩

/-- When the token phase does not abort and both identity fetches return a
non-404 response, `Collect` issues all four metadata requests and emits the
termination-phase readings followed by the rebalance-phase readings. -/
theorem collect_success_shape (c : terminationCollector) (b : Backend) (now : ℚ)
    (s1 s2 : ℕ) (id ty : String)
    (htok : tokenOk c b = true)
    (hid : b.instanceId = .ok s1 id) (h1 : s1 ≠ 404)
    (hty : b.instanceType = .ok s2 ty) (h2 : s2 ≠ 404) :
    ∃ tr, (tr = [] ∨ tr = [Request.tokenReq]) ∧
      collect c b now =
        (tr ++ [Request.idReq, Request.typeReq, Request.spotReq,
          Request.rebalanceReq],
         spotPhase b.spotAction id ty now ++
           rebalancePhase b.rebalance id ty) := by
  obtain ⟨tr, t, htp, htr⟩ := tokenPhase_of_tokenOk c b htok
  refine ⟨tr, htr, ?_⟩
  unfold collect
  rw [htp, hid, hty]
  simp [h1, h2]

/-- Every reading of the termination phase uses one of the three
termination-phase descriptors. -/
theorem spotPhase_metric_cases (r : FetchResult SpotBody) (id ty : String)
    (now : ℚ) (rd : Reading) (h : rd ∈ spotPhase r id ty now) :
    rd.metric = .scrapeSuccessful ∨ rd.metric = .terminationIndicator ∨
      rd.metric = .terminationTime := by
  unfold spotPhase at h
  rcases r with _ | ⟨s, bd⟩
  · simp at h; simp [h]
  · rw [List.mem_cons] at h
    rcases h with h | h
    · simp [h]
    · split at h
      · simp at h; simp [h]
      · split at h
        · simp at h; simp [h]
        · rw [List.mem_cons] at h
          rcases h with h | h
          · simp [h]
          · split at h <;> simp at h <;> simp [h]

/-- Every reading of the rebalance phase uses one of the two
rebalance-phase descriptors. -/
theorem rebalancePhase_metric_cases (r : FetchResult RebalanceBody)
    (id ty : String) (rd : Reading) (h : rd ∈ rebalancePhase r id ty) :
    rd.metric = .rebalanceScrapeSuccessful ∨
      rd.metric = .rebalanceIndicator := by
  unfold rebalancePhase at h
  rcases r with _ | ⟨s, bd⟩
  · simp at h; simp [h]
  · rw [List.mem_cons] at h
    rcases h with h | h
    · simp [h]
    · split at h
      · simp at h; simp [h]
      · split at h <;> simp at h <;> simp [h]

/-- The termination phase always emits its reachability gauge, with value
0 or 1. -/
theorem spotPhase_reach (r : FetchResult SpotBody) (id ty : String)
    (now : ℚ) :
    ∃ v, (v = 0 ∨ v = 1) ∧
      Reading.mk .scrapeSuccessful v [id] ∈ spotPhase r id ty now := by
  rcases r with _ | ⟨s, bd⟩
  · exact ⟨0, Or.inl rfl, by simp [spotPhase]⟩
  · exact ⟨1, Or.inr rfl, by simp [spotPhase]⟩

/-- The rebalance phase always emits its reachability gauge, with value 0
or 1. -/
theorem rebalancePhase_reach (r : FetchResult RebalanceBody)
    (id ty : String) :
    ∃ v, (v = 0 ∨ v = 1) ∧
      Reading.mk .rebalanceScrapeSuccessful v [id] ∈ rebalancePhase r id ty := by
  rcases r with _ | ⟨s, bd⟩
  · exact ⟨0, Or.inl rfl, by simp [rebalancePhase]⟩
  · exact ⟨1, Or.inr rfl, by simp [rebalancePhase]⟩

/-- Whatever the token result is, the requests issued by `Collect` extend
the token-phase requests. -/
theorem collect_requests_head (c : terminationCollector) (b : Backend)
    (now : ℚ) (tr : List Request) (t : String)
    (h : tokenPhase c b = some (tr, t)) :
    ∃ rest, (collect c b now).1 = tr ++ rest := by
  unfold collect
  rw [h]
  rcases b.instanceId with _ | ⟨s1, id⟩
  · exact ⟨_, rfl⟩
  · by_cases h1 : s1 = 404
    · simp only [h1, if_true, if_pos]; exact ⟨_, rfl⟩
    · rcases b.instanceType with _ | ⟨s2, ty⟩
      · simp only [if_neg h1]; exact ⟨_, rfl⟩
      · by_cases h2 : s2 = 404
        · simp only [if_neg h1, h2, if_true, if_pos]; exact ⟨_, rfl⟩
        · simp only [if_neg h1, if_neg h2]; exact ⟨_, rfl⟩

/-- Dichotomy for one scrape: either nothing was emitted and neither
optional endpoint was queried, or the readings are exactly the
termination-phase readings followed by the rebalance-phase readings. -/
theorem collect_shape (c : terminationCollector) (b : Backend) (now : ℚ) :
    ((collect c b now).2 = [] ∧ Request.spotReq ∉ (collect c b now).1 ∧
      Request.rebalanceReq ∉ (collect c b now).1) ∨
    (∃ id ty, (collect c b now).2 =
      spotPhase b.spotAction id ty now ++
        rebalancePhase b.rebalance id ty) := by
  have htp : tokenPhase c b = none ∨
      ∃ tr t, tokenPhase c b = some (tr, t) ∧
        Request.spotReq ∉ tr ∧ Request.rebalanceReq ∉ tr := by
    unfold tokenPhase
    cases c.useIMDSv2
    · right; exact ⟨[], "", by simp, by simp, by simp⟩
    · cases b.tokenResult
      · left; simp
      · rename_i t
        right; exact ⟨[Request.tokenReq], t, by simp, by simp, by simp⟩
  rcases htp with h | ⟨tr, t, h, hs, hr⟩ <;> unfold collect <;> rw [h]
  · left; exact ⟨rfl, by simp, by simp⟩
  · rcases b.instanceId with _ | ⟨s1, id⟩
    · left; exact ⟨rfl, by simp [hs], by simp [hr]⟩
    · by_cases h1 : s1 = 404
      · left; exact ⟨by simp [h1], by simp [h1, hs], by simp [h1, hr]⟩
      · rcases b.instanceType with _ | ⟨s2, ty⟩
        · left; exact ⟨by simp [h1], by simp [h1, hs], by simp [h1, hr]⟩
        · by_cases h2 : s2 = 404
          · left
            exact ⟨by simp [h1, h2], by simp [h1, h2, hs], by simp [h1, h2, hr]⟩
          · right; exact ⟨id, ty, by simp [h1, h2]⟩

/-- A collector with the default endpoints and IMDSv1. -/
def witnessCollector : terminationCollector :=
  ⟨"http://169.254.169.254/latest/meta-data/",
   "http://169.254.169.254/latest/api/token", false⟩

/-- A collector with the default endpoints and IMDSv2 enabled. -/
def witnessCollectorV2 : terminationCollector :=
  ⟨"http://169.254.169.254/latest/meta-data/",
   "http://169.254.169.254/latest/api/token", true⟩

/-- A backend whose spot endpoint announces termination in 120 seconds and
whose rebalance endpoint is absent. -/
def witnessBackend : Backend :=
  ⟨some "tok", .ok 200 "i-1234", .ok 200 "m5.large",
   .ok 200 (.object (some "terminate") (some 120)), .ok 404 .malformed⟩

/-- A backend whose spot endpoint fails at transport level. -/
def spotErrBackend : Backend :=
  ⟨some "tok", .ok 200 "i-1234", .ok 200 "m5.large", .err,
   .ok 200 (.object (some 30))⟩

/-- A backend whose spot endpoint is absent (404). -/
def spot404Backend : Backend :=
  ⟨some "tok", .ok 200 "i-1234", .ok 200 "m5.large", .ok 404 .malformed,
   .ok 404 .malformed⟩

/-- A backend whose spot endpoint returns the empty JSON object. -/
def emptyObjectBackend : Backend :=
  ⟨some "tok", .ok 200 "i-1234", .ok 200 "m5.large",
   .ok 200 (.object none none), .err⟩

/-- C1: if the instance-id or instance-type fetch yields a transport error
or a 404 status, `Collect` emits no reading at all — not even a
reachability gauge — and returns. -/
theorem collect_identity_abort (c : terminationCollector) (b : Backend)
    (now : ℚ)
    (h : abortsIdentity b.instanceId = true ∨
      abortsIdentity b.instanceType = true) :
    (collect c b now).2 = [] := by
  unfold collect
  rcases tokenPhase c b with _ | ⟨tr, tok⟩
  · rfl
  rcases hid : b.instanceId with _ | ⟨s1, id⟩
  · rfl
  rcases hty : b.instanceType with _ | ⟨s2, ty⟩
  · by_cases h1 : s1 = 404 <;> simp [h1]
  · rw [hid, hty] at h
    simp only [abortsIdentity, beq_iff_eq] at h
    by_cases h1 : s1 = 404
    · simp [h1]
    · by_cases h2 : s2 = 404
      · simp [h1, h2]
      · rcases h with h | h
        · exact absurd h h1
        · exact absurd h h2

/-- C1 witness: a 404 on instance-id yields an empty reading set. -/
theorem collect_identity_abort_witness :
    (collect witnessCollector
      ⟨some "tok", .ok 404 "", .ok 200 "m5.large", .err, .err⟩ 0).2 = [] :=
  collect_identity_abort witnessCollector
    ⟨some "tok", .ok 404 "", .ok 200 "m5.large", .err, .err⟩ 0
    (Or.inl (by decide))

/-- C2: with IMDSv2 enabled, a token-negotiation failure makes `Collect`
return with zero readings, the token PUT being the only request issued. -/
theorem collect_token_failure (c : terminationCollector) (b : Backend)
    (now : ℚ) (hu : c.useIMDSv2 = true) (ht : b.tokenResult = none) :
    collect c b now = ([Request.tokenReq], []) := by
  unfold collect tokenPhase
  simp [hu, ht]

/-- C2 witness: token failure at a concrete backend. -/
theorem collect_token_failure_witness :
    collect witnessCollectorV2
      ⟨none, .ok 200 "i-1234", .ok 200 "m5.large", .err, .err⟩ 0 =
      ([Request.tokenReq], []) :=
  collect_token_failure witnessCollectorV2
    ⟨none, .ok 200 "i-1234", .ok 200 "m5.large", .err, .err⟩ 0 rfl rfl

/-- C3: after a passed identity phase, a transport error on
spot/instance-action makes the termination phase contribute exactly the
reachability gauge with value 0 labelled with the instance id; no
termination-imminent or termination-eta reading is emitted anywhere in the
scrape, and the rebalance fetch is still performed. -/
theorem collect_spot_transport_error (c : terminationCollector)
    (b : Backend) (now : ℚ) (s1 s2 : ℕ) (id ty : String)
    (htok : tokenOk c b = true)
    (hid : b.instanceId = .ok s1 id) (h1 : s1 ≠ 404)
    (hty : b.instanceType = .ok s2 ty) (h2 : s2 ≠ 404)
    (hspot : b.spotAction = .err) :
    (collect c b now).2 =
      ⟨.scrapeSuccessful, 0, [id]⟩ :: rebalancePhase b.rebalance id ty ∧
    Request.rebalanceReq ∈ (collect c b now).1 ∧
    ∀ rd ∈ (collect c b now).2,
      rd.metric ≠ .terminationIndicator ∧ rd.metric ≠ .terminationTime := by
  obtain ⟨tr, htr, hc⟩ := collect_success_shape c b now s1 s2 id ty htok hid h1 hty h2
  have hsp : spotPhase b.spotAction id ty now =
      [⟨.scrapeSuccessful, 0, [id]⟩] := by rw [hspot]; rfl
  refine ⟨?_, ?_, ?_⟩
  · rw [hc]; simp [hsp]
  · rw [hc]; simp
  · intro rd hrd
    rw [hc] at hrd
    simp only [hsp, List.singleton_append, List.mem_cons] at hrd
    rcases hrd with h | h
    · subst h; exact ⟨by simp, by simp⟩
    · rcases rebalancePhase_metric_cases b.rebalance id ty rd h with h | h <;>
        rw [h] <;> exact ⟨by simp, by simp⟩

/-- C3 witness: spot transport error at a concrete backend. -/
theorem collect_spot_transport_error_witness :
    (collect witnessCollector spotErrBackend 0).2 =
      ⟨.scrapeSuccessful, 0, ["i-1234"]⟩ ::
        rebalancePhase spotErrBackend.rebalance "i-1234" "m5.large" ∧
    Request.rebalanceReq ∈ (collect witnessCollector spotErrBackend 0).1 ∧
    ∀ rd ∈ (collect witnessCollector spotErrBackend 0).2,
      rd.metric ≠ .terminationIndicator ∧ rd.metric ≠ .terminationTime :=
  collect_spot_transport_error witnessCollector spotErrBackend 0 200 200
    "i-1234" "m5.large" (by decide) rfl (by decide) rfl (by decide) rfl

/-- C4: after a passed identity phase, a 404 on spot/instance-action and a
non-404 response whose body does not decode produce the same termination
phase: reachability 1 and termination-imminent 0 with an empty
instance-action label, with no termination-eta reading in the scrape. -/
theorem collect_spot_notfound_or_unparseable (c : terminationCollector)
    (b : Backend) (now : ℚ) (s1 s2 : ℕ) (id ty : String) (bd : SpotBody)
    (htok : tokenOk c b = true)
    (hid : b.instanceId = .ok s1 id) (h1 : s1 ≠ 404)
    (hty : b.instanceType = .ok s2 ty) (h2 : s2 ≠ 404)
    (hspot : b.spotAction = .ok 404 bd ∨
      (b.spotAction = .ok 200 bd ∧ decodeInstanceAction bd = none)) :
    (collect c b now).2 =
      ⟨.scrapeSuccessful, 1, [id]⟩ ::
      ⟨.terminationIndicator, 0, ["", id, ty]⟩ ::
        rebalancePhase b.rebalance id ty ∧
    ∀ rd ∈ (collect c b now).2, rd.metric ≠ .terminationTime := by
  obtain ⟨tr, htr, hc⟩ := collect_success_shape c b now s1 s2 id ty htok hid h1 hty h2
  have hsp : spotPhase b.spotAction id ty now =
      [⟨.scrapeSuccessful, 1, [id]⟩,
       ⟨.terminationIndicator, 0, ["", id, ty]⟩] := by
    rcases hspot with h | ⟨h, hdec⟩
    · rw [h]; simp [spotPhase]
    · rw [h]; simp [spotPhase, hdec]
  refine ⟨?_, ?_⟩
  · rw [hc]; simp [hsp]
  · intro rd hrd
    rw [hc] at hrd
    simp only [hsp, List.cons_append, List.nil_append, List.mem_cons] at hrd
    rcases hrd with h | h | h
    · subst h; simp
    · subst h; simp
    · rcases rebalancePhase_metric_cases b.rebalance id ty rd h with h | h <;>
        rw [h] <;> simp

/-- C4 witness: spot 404 at a concrete backend. -/
theorem collect_spot_notfound_or_unparseable_witness :
    (collect witnessCollector spot404Backend 0).2 =
      ⟨.scrapeSuccessful, 1, ["i-1234"]⟩ ::
      ⟨.terminationIndicator, 0, ["", "i-1234", "m5.large"]⟩ ::
        rebalancePhase spot404Backend.rebalance "i-1234" "m5.large" ∧
    ∀ rd ∈ (collect witnessCollector spot404Backend 0).2,
      rd.metric ≠ .terminationTime :=
  collect_spot_notfound_or_unparseable witnessCollector spot404Backend 0
    200 200 "i-1234" "m5.large" .malformed (by decide) rfl (by decide) rfl
    (by decide) (Or.inl rfl)

/-- C5: after a passed identity phase, a 200 whose body decodes as a
termination notice yields reachability 1 and termination-imminent 1 with
the decoded action label, and a termination-eta reading of value
time-minus-now exists if and only if the decoded time is strictly in the
future. -/
theorem collect_spot_parseable (c : terminationCollector) (b : Backend)
    (now : ℚ) (s1 s2 : ℕ) (id ty : String) (bd : SpotBody)
    (ia : instanceAction)
    (htok : tokenOk c b = true)
    (hid : b.instanceId = .ok s1 id) (h1 : s1 ≠ 404)
    (hty : b.instanceType = .ok s2 ty) (h2 : s2 ≠ 404)
    (hspot : b.spotAction = .ok 200 bd)
    (hdec : decodeInstanceAction bd = some ia) :
    (collect c b now).2 =
      ⟨.scrapeSuccessful, 1, [id]⟩ ::
      ⟨.terminationIndicator, 1, [ia.Action, id, ty]⟩ ::
      ((if now < ia.Time then
          [⟨.terminationTime, ia.Time - now, [id, ty]⟩]
        else []) ++ rebalancePhase b.rebalance id ty) ∧
    ((∃ rd ∈ (collect c b now).2, rd.metric = .terminationTime) ↔
      now < ia.Time) := by
  obtain ⟨tr, htr, hc⟩ := collect_success_shape c b now s1 s2 id ty htok hid h1 hty h2
  have hsp : spotPhase b.spotAction id ty now =
      ⟨.scrapeSuccessful, 1, [id]⟩ ::
      ⟨.terminationIndicator, 1, [ia.Action, id, ty]⟩ ::
        (if now < ia.Time then
          [⟨.terminationTime, ia.Time - now, [id, ty]⟩]
        else []) := by
    rw [hspot]
    simp [spotPhase, hdec, sub_pos]
  refine ⟨by rw [hc]; simp [hsp], ?_, ?_⟩
  · rintro ⟨rd, hrd, hm⟩
    rw [hc] at hrd
    simp only [hsp, List.cons_append, List.mem_cons] at hrd
    rcases hrd with h | h | h
    · subst h; simp at hm
    · subst h; simp at hm
    · rw [List.mem_append] at h
      rcases h with h | h
      · by_contra hlt
        rw [if_neg hlt] at h
        simp at h
      · rcases rebalancePhase_metric_cases b.rebalance id ty rd h with hh | hh <;>
          rw [hh] at hm <;> simp at hm
  · intro hlt
    refine ⟨⟨.terminationTime, ia.Time - now, [id, ty]⟩, ?_, rfl⟩
    rw [hc]
    simp [hsp, hlt]

/-- C5 witness: a termination notice 120 seconds ahead of a scrape at time
0 yields imminent 1 with the action label and the eta reading. -/
theorem collect_spot_parseable_witness :
    (collect witnessCollector witnessBackend 0).2 =
      ⟨.scrapeSuccessful, 1, ["i-1234"]⟩ ::
      ⟨.terminationIndicator, 1, ["terminate", "i-1234", "m5.large"]⟩ ::
      ((if (0 : ℚ) < 120 then
          [⟨.terminationTime, (120 : ℚ) - 0, ["i-1234", "m5.large"]⟩]
        else []) ++
        rebalancePhase witnessBackend.rebalance "i-1234" "m5.large") :=
  (collect_spot_parseable witnessCollector witnessBackend 0 200 200 "i-1234"
    "m5.large" (.object (some "terminate") (some 120)) ⟨"terminate", 120⟩
    (by decide) rfl (by decide) rfl (by decide) rfl rfl).1

/-- C6: after a passed identity phase the rebalance phase emits exactly
the readings of the matching case — transport error: events-reachability 0
only; 404 or undecodable 200: events-reachability 1 and
rebalance-recommended 0; decodable 200: events-reachability 1 and
rebalance-recommended 1 — and the scrape issues no request after the
rebalance fetch. -/
theorem collect_rebalance_cases (c : terminationCollector) (b : Backend)
    (now : ℚ) (s1 s2 : ℕ) (id ty : String)
    (htok : tokenOk c b = true)
    (hid : b.instanceId = .ok s1 id) (h1 : s1 ≠ 404)
    (hty : b.instanceType = .ok s2 ty) (h2 : s2 ≠ 404) :
    (∃ pre, (collect c b now).1 = pre ++ [Request.rebalanceReq]) ∧
    (b.rebalance = .err →
      (collect c b now).2 = spotPhase b.spotAction id ty now ++
        [⟨.rebalanceScrapeSuccessful, 0, [id]⟩]) ∧
    (∀ bd, b.rebalance = .ok 404 bd →
      (collect c b now).2 = spotPhase b.spotAction id ty now ++
        [⟨.rebalanceScrapeSuccessful, 1, [id]⟩,
         ⟨.rebalanceIndicator, 0, [id, ty]⟩]) ∧
    (∀ bd, b.rebalance = .ok 200 bd → decodeInstanceEvent bd = none →
      (collect c b now).2 = spotPhase b.spotAction id ty now ++
        [⟨.rebalanceScrapeSuccessful, 1, [id]⟩,
         ⟨.rebalanceIndicator, 0, [id, ty]⟩]) ∧
    (∀ bd ev, b.rebalance = .ok 200 bd → decodeInstanceEvent bd = some ev →
      (collect c b now).2 = spotPhase b.spotAction id ty now ++
        [⟨.rebalanceScrapeSuccessful, 1, [id]⟩,
         ⟨.rebalanceIndicator, 1, [id, ty]⟩]) ∧
    (∀ rd ∈ spotPhase b.spotAction id ty now,
      rd.metric ≠ .rebalanceIndicator) := by
  obtain ⟨tr, htr, hc⟩ := collect_success_shape c b now s1 s2 id ty htok hid h1 hty h2
  refine ⟨?_, ?_, ?_, ?_, ?_, ?_⟩
  · exact ⟨tr ++ [Request.idReq, Request.typeReq, Request.spotReq],
      by rw [hc]; simp⟩
  · intro h; rw [hc, h]; rfl
  · intro bd h; rw [hc, h]; simp [rebalancePhase]
  · intro bd h hdec; rw [hc, h]; simp [rebalancePhase, hdec]
  · intro bd ev h hdec; rw [hc, h]; simp [rebalancePhase, hdec]
  · intro rd hrd
    rcases spotPhase_metric_cases b.spotAction id ty now rd hrd with h | h | h <;>
      rw [h] <;> simp

/-- C6 witness: a decodable rebalance notice yields events-reachability 1
and rebalance-recommended 1. -/
theorem collect_rebalance_cases_witness :
    (collect witnessCollector spotErrBackend 0).2 =
      spotPhase spotErrBackend.spotAction "i-1234" "m5.large" 0 ++
        [⟨.rebalanceScrapeSuccessful, 1, ["i-1234"]⟩,
         ⟨.rebalanceIndicator, 1, ["i-1234", "m5.large"]⟩] :=
  (collect_rebalance_cases witnessCollector spotErrBackend 0 200 200
    "i-1234" "m5.large" (by decide) rfl (by decide) rfl
    (by decide)).2.2.2.2.1 (.object (some 30)) ⟨30⟩ rfl rfl

/-- C7: a termination or rebalance indicator reading is never emitted
without the corresponding reachability reading in the same scrape, and
whenever one of the two optional endpoints is queried its reachability
gauge (value 0 or 1) is emitted. -/
theorem collect_reachability_invariant (c : terminationCollector)
    (b : Backend) (now : ℚ) :
    ((∃ rd ∈ (collect c b now).2,
        rd.metric = .terminationIndicator ∨ rd.metric = .terminationTime) →
      ∃ rd ∈ (collect c b now).2,
        rd.metric = .scrapeSuccessful ∧ (rd.value = 0 ∨ rd.value = 1)) ∧
    ((∃ rd ∈ (collect c b now).2, rd.metric = .rebalanceIndicator) →
      ∃ rd ∈ (collect c b now).2,
        rd.metric = .rebalanceScrapeSuccessful ∧
          (rd.value = 0 ∨ rd.value = 1)) ∧
    (Request.spotReq ∈ (collect c b now).1 →
      ∃ rd ∈ (collect c b now).2,
        rd.metric = .scrapeSuccessful ∧ (rd.value = 0 ∨ rd.value = 1)) ∧
    (Request.rebalanceReq ∈ (collect c b now).1 →
      ∃ rd ∈ (collect c b now).2,
        rd.metric = .rebalanceScrapeSuccessful ∧
          (rd.value = 0 ∨ rd.value = 1)) := by
  rcases collect_shape c b now with ⟨he, hs, hr⟩ | ⟨id, ty, he⟩
  · rw [he]
    refine ⟨?_, ?_, ?_, ?_⟩
    · rintro ⟨rd, hrd, _⟩; simp at hrd
    · rintro ⟨rd, hrd, _⟩; simp at hrd
    · intro h; exact absurd h hs
    · intro h; exact absurd h hr
  · obtain ⟨v, hv, hm⟩ := spotPhase_reach b.spotAction id ty now
    obtain ⟨w, hw, hm2⟩ := rebalancePhase_reach b.rebalance id ty
    rw [he]
    exact ⟨fun _ => ⟨_, List.mem_append_left _ hm, rfl, hv⟩,
      fun _ => ⟨_, List.mem_append_right _ hm2, rfl, hw⟩,
      fun _ => ⟨_, List.mem_append_left _ hm, rfl, hv⟩,
      fun _ => ⟨_, List.mem_append_right _ hm2, rfl, hw⟩⟩

/-- C7 witness: at a concrete scrape that queries the spot endpoint, the
metadata-service reachability gauge is among the readings. -/
theorem collect_reachability_invariant_witness :
    ∃ rd ∈ (collect witnessCollector witnessBackend 0).2,
      rd.metric = MetricName.scrapeSuccessful ∧
        (rd.value = 0 ∨ rd.value = 1) :=
  (collect_reachability_invariant witnessCollector witnessBackend 0).2.2.1
    (by decide)

/-- C8: `Collect` leaves the collector unchanged, repeated scrapes against
a fixed backend yield identical reading lists, and with IMDSv2 enabled the
token is re-negotiated (the token request is issued) on every scrape. -/
theorem collect_stateless_idempotent (c : terminationCollector)
    (b : Backend) (now : ℚ) (n : ℕ) :
    (collectStep c b now).1 = c ∧
    scrapeSeq c (List.replicate n b) now =
      List.replicate n (collect c b now).2 ∧
    (c.useIMDSv2 = true → Request.tokenReq ∈ (collect c b now).1) := by
  refine ⟨rfl, ?_, ?_⟩
  · induction n with
    | zero => rfl
    | succ k ih => simp [List.replicate_succ, scrapeSeq, collectStep, ih]
  · intro hu
    rcases htk : b.tokenResult with _ | t
    · have h : collect c b now = ([Request.tokenReq], []) := by
        unfold collect tokenPhase
        simp [hu, htk]
      rw [h]
      simp
    · have h : tokenPhase c b = some ([Request.tokenReq], t) := by
        unfold tokenPhase
        simp [hu, htk]
      obtain ⟨rest, hr⟩ := collect_requests_head c b now _ _ h
      rw [hr]
      simp

/-- C8 witness: with IMDSv2 enabled the token request is issued at a
concrete backend. -/
theorem collect_stateless_idempotent_witness :
    Request.tokenReq ∈ (collect witnessCollectorV2 witnessBackend 0).1 :=
  (collect_stateless_idempotent witnessCollectorV2 witnessBackend 0 2).2.2 rfl

/-- C9: every status other than 404 takes the success branch of each of
the four GET endpoints: the scrape behaves exactly as if all four had
returned 200, the identity bodies becoming the labels and the spot and
rebalance bodies being fed to the JSON decoder after a reachability-1
gauge. -/
theorem collect_status_insensitive (c : terminationCollector) (now : ℚ)
    (tok : Option String) (s1 s2 s3 s4 : ℕ) (b1 b2 : String)
    (b3 : SpotBody) (b4 : RebalanceBody)
    (h1 : s1 ≠ 404) (h2 : s2 ≠ 404) (h3 : s3 ≠ 404) (h4 : s4 ≠ 404) :
    collect c ⟨tok, .ok s1 b1, .ok s2 b2, .ok s3 b3, .ok s4 b4⟩ now =
      collect c ⟨tok, .ok 200 b1, .ok 200 b2, .ok 200 b3, .ok 200 b4⟩ now ∧
    (tokenOk c ⟨tok, .ok s1 b1, .ok s2 b2, .ok s3 b3, .ok s4 b4⟩ = true →
      (collect c ⟨tok, .ok s1 b1, .ok s2 b2, .ok s3 b3, .ok s4 b4⟩ now).2 =
        spotPhase (.ok s3 b3) b1 b2 now ++
          rebalancePhase (.ok s4 b4) b1 b2) := by
  constructor
  · unfold collect tokenPhase spotPhase rebalancePhase
    cases c.useIMDSv2 <;> cases tok <;> simp [h1, h2, h3, h4]
  · intro htok
    obtain ⟨tr, htr, hc⟩ :=
      collect_success_shape c ⟨tok, .ok s1 b1, .ok s2 b2, .ok s3 b3, .ok s4 b4⟩
        now s1 s2 b1 b2 htok rfl h1 rfl h2
    rw [hc]

/-- C9 witness: 500/503/401/500 statuses behave exactly like 200s. -/
theorem collect_status_insensitive_witness :
    collect witnessCollector
      ⟨some "tok", .ok 500 "i-1234", .ok 503 "m5.large", .ok 401 .malformed,
        .ok 500 .malformed⟩ 0 =
      collect witnessCollector
        ⟨some "tok", .ok 200 "i-1234", .ok 200 "m5.large",
          .ok 200 .malformed, .ok 200 .malformed⟩ 0 :=
  (collect_status_insensitive witnessCollector 0 (some "tok") 500 503 401 500
    "i-1234" "m5.large" .malformed .malformed (by decide) (by decide)
    (by decide) (by decide)).1

/-- C10: a spot body that is valid JSON but carries neither field (the
empty object) still decodes, so `Collect` emits termination-imminent 1
with an empty action label and, the zero time being in the past, no
termination-eta reading. -/
theorem collect_empty_object_imminent (c : terminationCollector)
    (b : Backend) (now : ℚ) (s1 s2 : ℕ) (id ty : String)
    (htok : tokenOk c b = true)
    (hid : b.instanceId = .ok s1 id) (h1 : s1 ≠ 404)
    (hty : b.instanceType = .ok s2 ty) (h2 : s2 ≠ 404)
    (hspot : b.spotAction = .ok 200 (SpotBody.object none none))
    (hnow : goZeroTime < now) :
    (collect c b now).2 =
      ⟨.scrapeSuccessful, 1, [id]⟩ ::
      ⟨.terminationIndicator, 1, ["", id, ty]⟩ ::
        rebalancePhase b.rebalance id ty ∧
    ∀ rd ∈ (collect c b now).2, rd.metric ≠ .terminationTime := by
  obtain ⟨tr, htr, hc⟩ := collect_success_shape c b now s1 s2 id ty htok hid h1 hty h2
  have hneg : ¬ (0 < goZeroTime - now) := by linarith
  have hsp : spotPhase b.spotAction id ty now =
      [⟨.scrapeSuccessful, 1, [id]⟩,
       ⟨.terminationIndicator, 1, ["", id, ty]⟩] := by
    rw [hspot]
    simp [spotPhase, decodeInstanceAction, hneg]
  refine ⟨by rw [hc]; simp [hsp], ?_⟩
  intro rd hrd
  rw [hc] at hrd
  simp only [hsp, List.cons_append, List.nil_append, List.mem_cons] at hrd
  rcases hrd with h | h | h
  · subst h; simp
  · subst h; simp
  · rcases rebalancePhase_metric_cases b.rebalance id ty rd h with h | h <;>
      rw [h] <;> simp

/-- C10 witness: the empty JSON object on the spot endpoint at scrape time
0 yields imminent 1 with an empty label. -/
theorem collect_empty_object_imminent_witness :
    (collect witnessCollector emptyObjectBackend 0).2 =
      ⟨.scrapeSuccessful, 1, ["i-1234"]⟩ ::
      ⟨.terminationIndicator, 1, ["", "i-1234", "m5.large"]⟩ ::
        rebalancePhase emptyObjectBackend.rebalance "i-1234" "m5.large" :=
  (collect_empty_object_imminent witnessCollector emptyObjectBackend 0 200
    200 "i-1234" "m5.large" (by decide) rfl (by decide) rfl (by decide) rfl
    (by decide)).1

end SpotTermination
